import Mathlib

/-
Verification development for the offer-assessment engine of the
tech-salary-negotiator repository.  The Python services under
src/services (market_data.py, umk_data.py, salary_analyzer.py) are
shallowly embedded below: numbers become exact rationals/integers,
Python dictionaries whose key set matters become association lists over
a finite key type, and code paths that can raise exceptions are modelled
in the Except monad, with the surrounding try/except blocks made
explicit.
-/

set_option maxRecDepth 8000

/-! ## Python value model -/

/-- A Python numeric-or-None value, as stored in the result dictionaries. -/
abbrev PyVal := Option ℚ

/-- Python `int(x)` on a float: truncation toward zero. -/
def pyInt (q : ℚ) : ℤ := if q < 0 then ⌈q⌉ else ⌊q⌋

/-- Round to the nearest integer, ties to even — the rounding used by
Python's built-in `round`. -/
def roundHalfEven (q : ℚ) : ℤ :=
  let f := ⌊q⌋
  let r := q - f
  if r < 1/2 then f
  else if 1/2 < r then f + 1
  else if f % 2 = 0 then f else f + 1

/-- Python `round(x, 1)`. -/
def pyRound1 (q : ℚ) : ℚ := (roundHalfEven (q * 10) : ℚ) / 10

/-- Truthiness of a Python numeric-or-None value (`None`, `0` and `0.0`
are falsy). -/
def truthyQ : PyVal → Bool
  | none => false
  | some v => v != 0

/-- Python `a < b` where `a` may be `None` (raises `TypeError`). -/
def pyLT (a : PyVal) (b : ℚ) : Except String Bool :=
  match a with
  | none => .error "TypeError"
  | some v => .ok (decide (v < b))

/-- Python `a > b` where `a` may be `None` (raises `TypeError`). -/
def pyGT (a : PyVal) (b : ℚ) : Except String Bool :=
  match a with
  | none => .error "TypeError"
  | some v => .ok (decide (b < v))

/-- Python `a >= b` where `a` may be `None` (raises `TypeError`). -/
def pyGE (a : PyVal) (b : ℚ) : Except String Bool :=
  match a with
  | none => .error "TypeError"
  | some v => .ok (decide (b ≤ v))

/-! ## Python string helpers -/

/-- `leadsWith pat s`: `s` starts with the character sequence `pat`. -/
def leadsWith : List Char → List Char → Bool
  | [], _ => true
  | _ :: _, [] => false
  | a :: u, b :: v => a == b && leadsWith u v

/-- `occursIn pat s`: `pat` occurs contiguously inside `s`
(Python `pat in s` on strings). -/
def occursIn : List Char → List Char → Bool
  | n, [] => n.isEmpty
  | n, c :: t => leadsWith n (c :: t) || occursIn n t

/-- Python substring test `pat in s`. -/
def strIn (pat s : String) : Bool := occursIn pat.toList s.toList

/-- Replace every (non-overlapping, left-to-right) occurrence of `pat`
by `rep`, as Python `str.replace` does for a non-empty pattern. -/
def replaceAll (pat rep : List Char) : List Char → List Char
  | [] => []
  | c :: t =>
    if 0 < pat.length && leadsWith pat (c :: t) then
      rep ++ replaceAll pat rep (t.drop (pat.length - 1))
    else
      c :: replaceAll pat rep t
termination_by s => s.length
decreasing_by
  all_goals simp only [List.length_drop, List.length_cons]
  all_goals omega

/-- Python `s.replace(pat, rep)`. -/
def pyReplace (s pat rep : String) : String :=
  String.mk (replaceAll pat.toList rep.toList s.toList)

/-- Python `s.strip()`. -/
def pyStrip (s : String) : String :=
  String.mk (((s.toList.dropWhile Char.isWhitespace).reverse.dropWhile
    Char.isWhitespace).reverse)

/-- Python `s.lower()` (ASCII, which covers every table key used here). -/
def lowerStr (s : String) : String := String.mk (s.toList.map Char.toLower)

/-- Insert a separator after every third character of a reversed digit
list (helper for Python's thousands formatting `f"{n:,}"`). -/
def groupRev : List Char → List Char
  | a :: b :: c :: d :: t => a :: b :: c :: ',' :: groupRev (d :: t)
  | l => l

/-- Python `f"{n:,}"` on an integer: decimal digits with `,` as
thousands separator. -/
def fmtComma (n : ℤ) : String :=
  (if n < 0 then "-" else "") ++
    String.mk ((groupRev (Nat.toDigits 10 n.natAbs).reverse).reverse)

/-- Python `f"{x:.1f}"`: fixed-point rendering with one decimal digit. -/
def fmt1 (q : ℚ) : String :=
  let n := roundHalfEven (q * 10)
  (if n < 0 then "-" else "") ++
    toString (n.natAbs / 10) ++ "." ++ toString (n.natAbs % 10)

/-- Helper for Python `str.title()`: uppercase a letter that follows a
non-letter, lowercase the rest.  The flag records whether the previous
character was alphabetic. -/
def titleGo : Bool → List Char → List Char
  | _, [] => []
  | prevAlpha, c :: t =>
    (if c.isAlpha then (if prevAlpha then c.toLower else c.toUpper) else c)
      :: titleGo c.isAlpha t

/-- Python `s.title()` (ASCII). -/
def pyTitle (s : String) : String := String.mk (titleGo false s.toList)

/-! ## Market data service (src/services/market_data.py)

The SQL result rows are modelled by records whose fields are exactly the
columns each SELECT statement produces; converting a row to a Python
dict (`dict(result)`) yields an association list over the key type
`Col`.  Crucially the two fallback queries do not select `p10`, so their
dictionaries have no `p10` key.  The sample store itself is abstracted
as the three query outcomes a single `get_market_data` call can observe:
each is either a row, no row, or a raised database error. -/

/-- The column names occurring in the query-result dictionaries. -/
inductive Col
  | p10 | p25 | p50 | p75 | p90 | sample_size | avg_base | avg_bonus | avg_equity
deriving DecidableEq, Repr

/-- A Python dict with the result-row columns as keys. -/
abbrev PyDict := List (Col × PyVal)

/-- Python `d[k]`: raises `KeyError` when the key is absent. -/
def dictGet (d : PyDict) (k : Col) : Except String PyVal :=
  match d.lookup k with
  | some v => .ok v
  | none => .error "KeyError"

/-- Row shape of the specific (step-1) query: percentiles p10..p90,
COUNT, and the three averages. -/
structure SpecificRow where
  p10 : Option ℚ
  p25 : Option ℚ
  p50 : Option ℚ
  p75 : Option ℚ
  p90 : Option ℚ
  sample_size : ℤ
  avg_base : Option ℚ
  avg_bonus : Option ℚ
  avg_equity : Option ℚ
deriving DecidableEq, Repr

/-- Row shape of both fallback queries: identical to `SpecificRow`
except that `p10` is not selected. -/
structure FallbackRow where
  p25 : Option ℚ
  p50 : Option ℚ
  p75 : Option ℚ
  p90 : Option ℚ
  sample_size : ℤ
  avg_base : Option ℚ
  avg_bonus : Option ℚ
  avg_equity : Option ℚ
deriving DecidableEq, Repr

/-- The sample store, abstracted as the outcomes of the three queries a
single `get_market_data` call can issue: the step-1 specific query and
the two broadening fallback queries.  `.error` models the database
raising; `.ok none` models `fetchone()` yielding no row. -/
structure Store where
  specific : Except String (Option SpecificRow)
  fallback1 : Except String (Option FallbackRow)
  fallback2 : Except String (Option FallbackRow)

/-- `dict(result)` for a step-1 row. -/
def specToDict (r : SpecificRow) : PyDict :=
  [(.p10, r.p10), (.p25, r.p25), (.p50, r.p50), (.p75, r.p75), (.p90, r.p90),
   (.sample_size, some (r.sample_size : ℚ)), (.avg_base, r.avg_base),
   (.avg_bonus, r.avg_bonus), (.avg_equity, r.avg_equity)]

/-- `dict(result)` for a fallback row — no `p10` key. -/
def fbToDict (r : FallbackRow) : PyDict :=
  [(.p25, r.p25), (.p50, r.p50), (.p75, r.p75), (.p90, r.p90),
   (.sample_size, some (r.sample_size : ℚ)), (.avg_base, r.avg_base),
   (.avg_bonus, r.avg_bonus), (.avg_equity, r.avg_equity)]

/-- The literal empty-result dictionary `_fallback_query` returns when
even the broadest query yields nothing or the query raises. -/
def emptyFallbackDict : PyDict :=
  [(.p25, none), (.p50, none), (.p75, none), (.p90, none),
   (.sample_size, some 0), (.avg_base, none), (.avg_bonus, none),
   (.avg_equity, none)]

/-- `MarketDataService._fallback_query`: try the title+verified 24-month
query; if its sample_size is at least 5 return it, otherwise run the
verified-only query; any exception inside is caught and replaced by the
empty result dictionary. -/
def fallback_query (st : Store) : PyDict :=
  let attempt : Except String PyDict :=
    match st.fallback1 with
    | .error e => .error e
    | .ok row =>
      let d : PyDict :=
        match row with
        | some r => fbToDict r
        | none => [(.sample_size, some 0)]
      match dictGet d .sample_size with
      | .error e => .error e
      | .ok ss =>
        match pyGE ss 5 with
        | .error e => .error e
        | .ok true => .ok d
        | .ok false =>
          match st.fallback2 with
          | .error e => .error e
          | .ok (some r2) => .ok (fbToDict r2)
          | .ok none => .ok emptyFallbackDict
  match attempt with
  | .ok d => d
  | .error _ => emptyFallbackDict

/-- The tier-1 city list of `_get_location_tier`. -/
def tier1_cities : List String :=
  ["san francisco", "sf", "bay area", "silicon valley", "palo alto",
   "new york", "nyc", "manhattan", "brooklyn",
   "seattle", "los angeles", "la", "santa monica",
   "boston", "washington dc", "dc", "san diego"]

/-- The tier-2 city list of `_get_location_tier`. -/
def tier2_cities : List String :=
  ["austin", "denver", "portland", "chicago", "miami",
   "philadelphia", "atlanta", "dallas", "houston",
   "minneapolis", "phoenix", "salt lake city", "raleigh"]

/-- `MarketDataService._get_location_tier`. -/
def get_location_tier (location : String) : String :=
  if location = "" then "tier3"
  else
    let ll := lowerStr location
    if ["remote", "work from home", "wfh"].any (fun t => strIn t ll) then "remote"
    else if tier1_cities.any (fun c => strIn c ll) then "tier1"
    else if tier2_cities.any (fun c => strIn c ll) then "tier2"
    else "tier3"

/-- The exact-city cost-of-living table of `_get_col_multiplier`, in
source (insertion) order. -/
def col_multipliers : List (String × ℚ) :=
  [("san francisco", 1.52), ("sf", 1.52), ("bay area", 1.52), ("silicon valley", 1.52),
   ("new york", 1.48), ("nyc", 1.48), ("manhattan", 1.55),
   ("seattle", 1.35), ("los angeles", 1.42), ("la", 1.42),
   ("boston", 1.38), ("washington dc", 1.35), ("dc", 1.35),
   ("san diego", 1.32),
   ("austin", 1.18), ("denver", 1.15), ("portland", 1.12),
   ("chicago", 1.08), ("miami", 1.10), ("philadelphia", 1.05),
   ("atlanta", 1.03), ("dallas", 1.04), ("houston", 1.02),
   ("remote", 1.00), ("work from home", 1.00), ("wfh", 1.00)]

/-- `MarketDataService._get_col_multiplier`. -/
def get_col_multiplier (location : String) : ℚ :=
  let ll := if location = "" then "" else lowerStr location
  match col_multipliers.find? (fun p => strIn p.1 ll) with
  | some p => p.2
  | none =>
    (([("tier1", (1.4 : ℚ)), ("tier2", 1.1), ("tier3", 1.0),
       ("remote", 1.0)].lookup (get_location_tier location))).getD 1

/-- The in-demand technology premium table of
`_calculate_tech_stack_premium`, in source (insertion) order. -/
def premium_tech : List (String × ℚ) :=
  [("rust", 1.20), ("golang", 1.15), ("go", 1.15),
   ("kubernetes", 1.18), ("k8s", 1.18), ("docker", 1.08),
   ("ai", 1.25), ("ml", 1.25), ("machine learning", 1.25),
   ("deep learning", 1.28), ("tensorflow", 1.22), ("pytorch", 1.22),
   ("aws", 1.12), ("azure", 1.10), ("gcp", 1.15),
   ("terraform", 1.15), ("ansible", 1.10),
   ("react", 1.08), ("vue", 1.06), ("angular", 1.05),
   ("nodejs", 1.10), ("typescript", 1.12),
   ("spark", 1.18), ("hadoop", 1.15), ("snowflake", 1.20),
   ("tableau", 1.10), ("looker", 1.08),
   ("cryptography", 1.15), ("security", 1.12),
   ("blockchain", 1.20), ("ethereum", 1.18), ("solidity", 1.22),
   ("react native", 1.12), ("flutter", 1.15), ("swift", 1.10)]

/-- The premiums collected by the loop in
`_calculate_tech_stack_premium`: for each lowercased tag, an exact table
lookup, else the first table entry matching by substring containment in
either direction. -/
def collectPremiums (tech_stack : List String) : List ℚ :=
  (tech_stack.map lowerStr).filterMap (fun t =>
    match premium_tech.lookup t with
    | some p => some p
    | none =>
      (premium_tech.find? (fun kv => strIn kv.1 t || strIn t kv.1)).map
        (fun kv => kv.2))

/-- Python `max` on a non-empty list (the `[]` case is never reached by
the caller, which guards on emptiness). -/
def maxQ : List ℚ → ℚ
  | [] => 0
  | a :: t => t.foldl max a

/-- `MarketDataService._calculate_tech_stack_premium`. -/
def calculate_tech_stack_premium (tech_stack : List String) : ℚ :=
  if tech_stack.isEmpty then 1
  else
    let premiums := collectPremiums tech_stack
    if premiums.isEmpty then 1
    else min (maxQ premiums) 1.35

/-- `MarketDataService._calculate_confidence`, applied to a dictionary
value (a `None` sample size would raise `TypeError`). -/
def confidenceE (s : PyVal) : Except String String :=
  match s with
  | none => .error "TypeError"
  | some v =>
    .ok (if 100 ≤ v then "high"
      else if 30 ≤ v then "medium"
      else if 10 ≤ v then "low"
      else "very_low")

/-- One adjusted percentile of the returned snapshot:
`int(v * col_multiplier * tech_premium) if v else None`. -/
def adjustVal (col tech : ℚ) (v : PyVal) : Option ℤ :=
  match v with
  | none => none
  | some x => if x = 0 then none else some (pyInt (x * col * tech))

/-- One average of the returned snapshot: `int(v) if v else None`
(the averages are not multiplied). -/
def avgVal (v : PyVal) : Option ℤ :=
  match v with
  | none => none
  | some x => if x = 0 then none else some (pyInt x)

/-- The dictionary `get_market_data` returns to its caller. -/
structure MarketSnapshot where
  p10 : Option ℤ
  p25 : Option ℤ
  p50 : Option ℤ
  p75 : Option ℤ
  p90 : Option ℤ
  sample_size : PyVal
  avg_base : Option ℤ
  avg_bonus : Option ℤ
  avg_equity : Option ℤ
  confidence : String
  data_freshness : String
deriving DecidableEq, Repr

/-- `MarketDataService._get_default_market_data`. -/
def get_default_market_data : MarketSnapshot :=
  { p10 := some 60000, p25 := some 75000, p50 := some 95000,
    p75 := some 120000, p90 := some 150000, sample_size := some 0,
    avg_base := some 95000, avg_bonus := some 10000, avg_equity := some 5000,
    confidence := "very_low", data_freshness := "estimated" }

/-- Building the adjusted `market_data` dictionary from `result_dict`
(lines 81–93 of market_data.py).  Each key access can raise `KeyError`;
the keys are read in the order the dict literal evaluates them. -/
def buildSnapshot (rd : PyDict) (col tech : ℚ) : Except String MarketSnapshot :=
  match dictGet rd .p10 with
  | .error e => .error e
  | .ok vp10 =>
  match dictGet rd .p25 with
  | .error e => .error e
  | .ok vp25 =>
  match dictGet rd .p50 with
  | .error e => .error e
  | .ok vp50 =>
  match dictGet rd .p75 with
  | .error e => .error e
  | .ok vp75 =>
  match dictGet rd .p90 with
  | .error e => .error e
  | .ok vp90 =>
  match dictGet rd .sample_size with
  | .error e => .error e
  | .ok vss =>
  match dictGet rd .avg_base with
  | .error e => .error e
  | .ok vab =>
  match dictGet rd .avg_bonus with
  | .error e => .error e
  | .ok vbo =>
  match dictGet rd .avg_equity with
  | .error e => .error e
  | .ok veq =>
  match confidenceE vss with
  | .error e => .error e
  | .ok conf =>
  match pyGT vss 0 with
  | .error e => .error e
  | .ok fresh =>
    .ok { p10 := adjustVal col tech vp10, p25 := adjustVal col tech vp25,
          p50 := adjustVal col tech vp50, p75 := adjustVal col tech vp75,
          p90 := adjustVal col tech vp90, sample_size := vss,
          avg_base := avgVal vab, avg_bonus := avgVal vbo,
          avg_equity := avgVal veq, confidence := conf,
          data_freshness := if fresh then "recent" else "limited" }

/-- Body of the try-block of `get_market_data`: run the specific query,
fall back when there is no row or fewer than 5 samples, then build the
adjusted snapshot.  Errors escaping this computation are the ones the
top-level except-handler catches. -/
def getMarketDataE (st : Store) (col tech : ℚ) : Except String MarketSnapshot :=
  match st.specific with
  | .error e => .error e
  | .ok row =>
    let rd : PyDict :=
      match row with
      | some r => specToDict r
      | none => [(.sample_size, some 0)]
    let useFallbackE : Except String Bool :=
      match row with
      | none => .ok true
      | some _ =>
        match dictGet rd .sample_size with
        | .error e => .error e
        | .ok ss => pyLT ss 5
    match useFallbackE with
    | .error e => .error e
    | .ok useFallback =>
      buildSnapshot (if useFallback then fallback_query st else rd) col tech

/-- `MarketDataService.get_market_data`: the cost-of-living multiplier
and tech-stack premium are computed from the raw inputs, the try-block
body runs, and any exception is converted into the fixed default
snapshot. -/
def get_market_data (st : Store) (location : String)
    (tech_stack : List String) : MarketSnapshot :=
  let col := get_col_multiplier location
  let tech := calculate_tech_stack_premium tech_stack
  match getMarketDataE st col tech with
  | .ok s => s
  | .error _ => get_default_market_data

/-! ## UMK minimum-wage data (src/services/umk_data.py) -/

/-- One entry of the `UMK_DATA_2024` table. -/
structure UMKRecord where
  kabupaten_kota : String
  provinsi : String
  umk : ℤ
  region : String
deriving DecidableEq, Repr

/-- The `UMK_DATA_2024` dictionary, in source (insertion) order. -/
def UMK_DATA_2024 : List (String × UMKRecord) :=
  [("jakarta", ⟨"Jakarta", "DKI Jakarta", 5067823, "jabodetabek"⟩),
   ("jakarta pusat", ⟨"Jakarta Pusat", "DKI Jakarta", 5067823, "jabodetabek"⟩),
   ("jakarta utara", ⟨"Jakarta Utara", "DKI Jakarta", 5067823, "jabodetabek"⟩),
   ("jakarta barat", ⟨"Jakarta Barat", "DKI Jakarta", 5067823, "jabodetabek"⟩),
   ("jakarta selatan", ⟨"Jakarta Selatan", "DKI Jakarta", 5067823, "jabodetabek"⟩),
   ("jakarta timur", ⟨"Jakarta Timur", "DKI Jakarta", 5067823, "jabodetabek"⟩),
   ("bogor", ⟨"Kota Bogor", "Jawa Barat", 4459693, "jabodetabek"⟩),
   ("depok", ⟨"Kota Depok", "Jawa Barat", 4415979, "jabodetabek"⟩),
   ("tangerang", ⟨"Kota Tangerang", "Banten", 4350672, "jabodetabek"⟩),
   ("tangerang selatan", ⟨"Kota Tangerang Selatan", "Banten", 4350672, "jabodetabek"⟩),
   ("bekasi", ⟨"Kota Bekasi", "Jawa Barat", 4781208, "jabodetabek"⟩),
   ("bandung", ⟨"Kota Bandung", "Jawa Barat", 3742275, "jawa_barat"⟩),
   ("cimahi", ⟨"Kota Cimahi", "Jawa Barat", 3742275, "jawa_barat"⟩),
   ("sukabumi", ⟨"Kota Sukabumi", "Jawa Barat", 2679393, "jawa_barat"⟩),
   ("cirebon", ⟨"Kota Cirebon", "Jawa Barat", 2197442, "jawa_barat"⟩),
   ("semarang", ⟨"Kota Semarang", "Jawa Tengah", 2954326, "jawa_tengah"⟩),
   ("surakarta", ⟨"Kota Surakarta", "Jawa Tengah", 2104701, "jawa_tengah"⟩),
   ("solo", ⟨"Kota Surakarta", "Jawa Tengah", 2104701, "jawa_tengah"⟩),
   ("yogyakarta", ⟨"Yogyakarta", "DI Yogyakarta", 2165830, "yogyakarta"⟩),
   ("surabaya", ⟨"Kota Surabaya", "Jawa Timur", 2430438, "jawa_timur"⟩),
   ("malang", ⟨"Kota Malang", "Jawa Timur", 2087093, "jawa_timur"⟩),
   ("kediri", ⟨"Kota Kediri", "Jawa Timur", 1997077, "jawa_timur"⟩),
   ("blitar", ⟨"Kota Blitar", "Jawa Timur", 2143536, "jawa_timur"⟩),
   ("denpasar", ⟨"Kota Denpasar", "Bali", 2636407, "bali"⟩),
   ("badung", ⟨"Kabupaten Badung", "Bali", 2636407, "bali"⟩),
   ("medan", ⟨"Kota Medan", "Sumatera Utara", 3019784, "sumatera"⟩),
   ("palembang", ⟨"Kota Palembang", "Sumatera Selatan", 3284052, "sumatera"⟩),
   ("padang", ⟨"Kota Padang", "Sumatera Barat", 2600628, "sumatera"⟩),
   ("pekanbaru", ⟨"Kota Pekanbaru", "Riau", 3194262, "sumatera"⟩),
   ("banjarmasin", ⟨"Kota Banjarmasin", "Kalimantan Selatan", 3034324, "kalimantan"⟩),
   ("samarinda", ⟨"Kota Samarinda", "Kalimantan Timur", 3094230, "kalimantan"⟩),
   ("balikpapan", ⟨"Kota Balikpapan", "Kalimantan Timur", 3294214, "kalimantan"⟩),
   ("pontianak", ⟨"Kota Pontianak", "Kalimantan Barat", 2836287, "kalimantan"⟩),
   ("makassar", ⟨"Kota Makassar", "Sulawesi Selatan", 3372930, "sulawesi"⟩),
   ("manado", ⟨"Kota Manado", "Sulawesi Utara", 3503965, "sulawesi"⟩),
   ("jayapura", ⟨"Kota Jayapura", "Papua", 3611729, "papua"⟩)]

/-- The province-level fallback table of `get_umk_for_location`, in
source order. -/
def province_umk : List (String × ℤ) :=
  [("bali", 2636407),
   ("dki jakarta", 5067823),
   ("di yogyakarta", 2165830),
   ("yogyakarta", 2165830),
   ("jawa barat", 1842589),
   ("jawa tengah", 1963008),
   ("jawa timur", 2087170)]

/-- `location.lower().strip()` as computed by `get_umk_for_location`. -/
def locationLower (location : String) : String := pyStrip (lowerStr location)

/-- The cleaned location (`location_clean`): administrative qualifiers
removed by the chain of `replace` calls. -/
def locationClean (location : String) : String :=
  pyReplace
    (pyReplace
      (pyReplace (pyReplace (locationLower location) "kota " "") "kabupaten " "")
      " daerah istimewa yogyakarta" "yogyakarta")
    "dki " ""

/-- `get_umk_for_location`: direct key lookup on the cleaned location,
then substring match in either direction (first entry in table order),
then the province fallback matched against the lowered-stripped text,
else `None`. -/
def get_umk_for_location (location : String) : Option UMKRecord :=
  if location = "" then none
  else
    let ll := locationLower location
    let lc := locationClean location
    match UMK_DATA_2024.lookup lc with
    | some r => some r
    | none =>
      match UMK_DATA_2024.find? (fun p => strIn p.1 lc || strIn lc p.1) with
      | some p => some p.2
      | none =>
        match province_umk.find? (fun p => strIn p.1 ll) with
        | some p =>
          some { kabupaten_kota := "Provinsi " ++ pyTitle p.1,
                 provinsi := pyTitle p.1, umk := p.2, region := "province" }
        | none => none

/-- `format_umk`: Indonesian Rupiah rendering,
`f"Rp {n:,}".replace(",", ".")`. -/
def format_umk (n : ℤ) : String := pyReplace ("Rp " ++ fmtComma n) "," "."

/-- The compliance dictionary built by `calculate_umk_compliance`.
Fields that the no-data branch does not put into the dictionary are
`Option`-valued and `none` there. -/
structure ComplianceResult where
  complies : Bool
  percentage_above_umk : Option ℚ
  umk_amount : Option ℤ
  umk_amount_formatted : Option String
  annual_umk : Option ℤ
  annual_umk_formatted : Option String
  difference : Option ℤ
  difference_formatted : Option String
  monthly_salary : Option ℤ
  monthly_salary_formatted : Option String
  annual_salary : Option ℤ
  annual_salary_formatted : Option String
  message : String
  risk_level : Option String
deriving DecidableEq, Repr

/-- The dictionary returned when no UMK record is available. -/
def nullComplianceResult : ComplianceResult :=
  { complies := true, percentage_above_umk := none, umk_amount := none,
    umk_amount_formatted := none, annual_umk := none,
    annual_umk_formatted := none, difference := none,
    difference_formatted := none, monthly_salary := none,
    monthly_salary_formatted := none, annual_salary := none,
    annual_salary_formatted := none,
    message := "UMK data not available for this location",
    risk_level := none }

/-- `calculate_umk_compliance`. -/
def calculate_umk_compliance (base_salary : ℤ) (umk_data : Option UMKRecord) :
    ComplianceResult :=
  match umk_data with
  | none => nullComplianceResult
  | some rec =>
    let umk_amount := rec.umk
    let annual_salary := base_salary * 12
    let annual_umk := umk_amount * 12
    let difference := annual_salary - annual_umk
    let percentage_above : ℚ :=
      if 0 < annual_umk then ((difference : ℚ) / (annual_umk : ℚ)) * 100 else 0
    { complies := decide (annual_umk ≤ annual_salary),
      percentage_above_umk := some (pyRound1 percentage_above),
      umk_amount := some umk_amount,
      umk_amount_formatted := some (format_umk umk_amount),
      annual_umk := some annual_umk,
      annual_umk_formatted := some (format_umk annual_umk),
      difference := some difference,
      difference_formatted :=
        some (if 0 < difference then format_umk difference
          else pyReplace ("-Rp " ++ fmtComma |difference|) "," "."),
      monthly_salary := some base_salary,
      monthly_salary_formatted := some (format_umk base_salary),
      annual_salary := some annual_salary,
      annual_salary_formatted := some (format_umk annual_salary),
      message :=
        if annual_salary < annual_umk then
          "WARNING: Offer is " ++ fmt1 |percentage_above| ++ "% below UMK!"
        else if percentage_above < 20 then
          "Meets UMK requirement (" ++ fmt1 percentage_above ++ " above minimum)"
        else if percentage_above < 50 then
          "Above UMK requirement (" ++ fmt1 percentage_above ++ " above minimum)"
        else
          "Significantly above UMK requirement (" ++ fmt1 percentage_above ++
            " above minimum)",
      risk_level :=
        some (if annual_salary < annual_umk then "high"
          else if percentage_above < 20 then "low"
          else if percentage_above < 50 then "low"
          else "none") }

/-! ## Verdict, negotiation room, leverage (src/services/salary_analyzer.py) -/

/-- `None` and `0` both collapse to `0`, as in
`market_data.get(key, 0) or 0`. -/
def orZero (v : Option ℤ) : ℤ := v.getD 0

/-- `SalaryAnalyzer._determine_verdict`. -/
def determine_verdict (total_comp : ℤ) (md : MarketSnapshot) : String :=
  let p25 := orZero md.p25
  let p50 := orZero md.p50
  let p75 := orZero md.p75
  let p90 := orZero md.p90
  if p50 = 0 then
    if total_comp < 70000 then "SIGNIFICANTLY_UNDERPAID"
    else if total_comp < 90000 then "UNDERPAID"
    else if total_comp < 120000 then "FAIR"
    else if total_comp < 150000 then "COMPETITIVE"
    else "EXCELLENT"
  else
    if total_comp < p25 then "SIGNIFICANTLY_UNDERPAID"
    else if total_comp < p50 then "UNDERPAID"
    else if total_comp < p75 then "FAIR"
    else if total_comp < p90 then "COMPETITIVE"
    else "EXCELLENT"

/-- `SalaryAnalyzer._determine_verdict_umk` — the code spells the
below-minimum verdict `"BELOW_UMK"`.  A falsy (absent) compliance
argument skips the override. -/
def determine_verdict_umk (total_comp : ℤ) (md : MarketSnapshot)
    (umk_compliance : Option ComplianceResult) : String :=
  match umk_compliance with
  | some c => if ¬ c.complies then "BELOW_UMK" else determine_verdict total_comp md
  | none => determine_verdict total_comp md

/-- The dictionary `_calculate_negotiation_room` returns.  The salary
targets are ints; the percentage increases are rounded floats. -/
structure NegotiationRoom where
  conservative : ℤ
  realistic : ℤ
  aggressive : ℤ
  pi_conservative : ℚ
  pi_realistic : ℚ
  pi_aggressive : ℚ
deriving DecidableEq, Repr

/-- `SalaryAnalyzer._calculate_negotiation_room`.  The snapshot always
carries the p75/p90 keys, so only the `or`-fallback applies: a `None` or
zero percentile is replaced by the 1.1×/1.2× default. -/
def calculate_negotiation_room (current_comp : ℤ) (md : MarketSnapshot) :
    NegotiationRoom :=
  if current_comp = 0 then ⟨0, 0, 0, 0, 0, 0⟩
  else
    let p75 : ℚ :=
      match md.p75 with
      | some v => if v = 0 then (current_comp : ℚ) * 1.1 else (v : ℚ)
      | none => (current_comp : ℚ) * 1.1
    let p90 : ℚ :=
      match md.p90 with
      | some v => if v = 0 then (current_comp : ℚ) * 1.2 else (v : ℚ)
      | none => (current_comp : ℚ) * 1.2
    let conservative := max ((current_comp : ℚ) * 1.05) p75
    let aggressive := p90
    let realistic := (conservative + aggressive) / 2
    { conservative := pyInt conservative,
      realistic := pyInt realistic,
      aggressive := pyInt aggressive,
      pi_conservative := pyRound1 ((conservative / (current_comp : ℚ) - 1) * 100),
      pi_realistic := pyRound1 ((realistic / (current_comp : ℚ) - 1) * 100),
      pi_aggressive := pyRound1 ((aggressive / (current_comp : ℚ) - 1) * 100) }

/-- The offer dictionary fields `_extract_leverage_points` reads.
`Option` models an absent key or a `None` value where the code only
tests truthiness or supplies a default. -/
structure Offer where
  base_salary : Option ℤ
  bonus : Option ℤ
  equity_value : Option ℤ
  company : Option String
  years_experience : ℤ
  tech_stack : List String
  has_competing_offers : Bool
deriving DecidableEq, Repr

/-- One leverage point. -/
structure LeveragePoint where
  ltype : String
  description : String
  strength : String
deriving DecidableEq, Repr

/-- The fixed hot-technology list of `_extract_leverage_points`. -/
def hot_tech : List String :=
  ["rust", "golang", "kubernetes", "ai", "ml", "blockchain",
   "tensorflow", "pytorch", "aws", "azure", "gcp"]

/-- Truthiness of an optional integer field. -/
def truthyZ : Option ℤ → Bool
  | none => false
  | some v => v != 0

/-- Truthiness of an optional string field. -/
def truthyS : Option String → Bool
  | none => false
  | some s => s != ""

/-- `SalaryAnalyzer._extract_leverage_points`.  `market_data.get("p50", 0)`
finds the key (the snapshot always carries it), so a `None` median makes
the comparison `p50 > current_base` raise `TypeError`; the list is built
by appending in the fixed source order. -/
def extract_leverage_points (o : Offer) (md : MarketSnapshot) :
    Except String (List LeveragePoint) :=
  let current_base : ℤ := (o.base_salary.getD 0)
  match md.p50 with
  | none => .error "TypeError"
  | some p50 =>
    let market : List LeveragePoint :=
      if current_base < p50 then
        [⟨"market_rate",
          "Market median base salary is $" ++ fmtComma (p50 - current_base) ++
            " higher", "strong"⟩]
      else []
    let user_tech := o.tech_stack.map lowerStr
    let matching_hot_tech := hot_tech.filter (fun t => user_tech.contains t)
    let tech : List LeveragePoint :=
      if matching_hot_tech.isEmpty then []
      else
        [⟨"tech_premium",
          "Specialized in high-demand technologies: " ++
            String.intercalate ", " (matching_hot_tech.take 3),
          if matching_hot_tech.length < 3 then "medium" else "strong"⟩]
    let years_exp := o.years_experience
    let experience : List LeveragePoint :=
      if 10 ≤ years_exp then
        [⟨"experience", toString years_exp ++ "+ years of extensive experience",
          "strong"⟩]
      else if 5 ≤ years_exp then
        [⟨"experience", toString years_exp ++ "+ years of solid experience",
          "medium"⟩]
      else []
    let equity : List LeveragePoint :=
      if ¬ truthyZ o.equity_value ∧ truthyS o.company then
        [⟨"missing_equity", "No equity component in current offer", "medium"⟩]
      else []
    let bonus : List LeveragePoint :=
      if ¬ truthyZ o.bonus ∧ 80000 < o.base_salary.getD 0 then
        [⟨"missing_bonus", "No performance bonus structure", "weak"⟩]
      else []
    let competition : List LeveragePoint :=
      if o.has_competing_offers then
        [⟨"competition", "Multiple offers in hand provides leverage", "strong"⟩]
      else []
    .ok (market ++ tech ++ experience ++ equity ++ bonus ++ competition)

/-! ## Helper lemmas -/

/-- Accessing an absent key raises `KeyError`. -/
theorem dictGet_none {d : PyDict} {k : Col} (h : d.lookup k = none) :
    dictGet d k = .error "KeyError" := by
  simp [dictGet, h]

/-- Every dictionary `_fallback_query` can return lacks the `p10` key:
both fallback SELECTs omit it, and so do the no-row and error-path
dictionaries. -/
theorem fallback_query_no_p10 (st : Store) :
    (fallback_query st).lookup Col.p10 = none := by
  unfold fallback_query
  cases h1 : st.fallback1 with
  | error e => rfl
  | ok row =>
    cases row with
    | none =>
      cases h2 : st.fallback2 with
      | error e => rfl
      | ok r2 =>
        cases r2 with
        | none => rfl
        | some r => rfl
    | some r =>
      dsimp only
      rw [show dictGet (fbToDict r) Col.sample_size =
        Except.ok (some ((r.sample_size : ℤ) : ℚ)) from rfl]
      dsimp only
      rw [show pyGE (some ((r.sample_size : ℤ) : ℚ)) 5 =
        Except.ok (decide ((5 : ℚ) ≤ ((r.sample_size : ℤ) : ℚ))) from rfl]
      cases hd : decide ((5 : ℚ) ≤ ((r.sample_size : ℤ) : ℚ)) with
      | true => rfl
      | false =>
        cases h2 : st.fallback2 with
        | error e => rfl
        | ok r2 =>
          cases r2 with
          | none => rfl
          | some r3 => rfl

/-- A missing `p10` key makes the snapshot construction raise. -/
theorem buildSnapshot_p10_err {rd : PyDict} (col tech : ℚ)
    (h : rd.lookup Col.p10 = none) :
    buildSnapshot rd col tech = .error "KeyError" := by
  unfold buildSnapshot
  rw [dictGet_none h]

/-- When the step-1 query yields no row or fewer than 5 samples, the
try-block raises `KeyError` while adjusting the fallback result. -/
theorem getMarketDataE_fallback_err (st : Store) (col tech : ℚ)
    (row : Option SpecificRow) (hq : st.specific = .ok row)
    (hlt : ∀ r, row = some r → r.sample_size < 5) :
    getMarketDataE st col tech = .error "KeyError" := by
  unfold getMarketDataE
  rw [hq]
  cases row with
  | none =>
    exact buildSnapshot_p10_err col tech (fallback_query_no_p10 st)
  | some r =>
    have h5 : (((r.sample_size : ℤ) : ℚ) < 5) := by exact_mod_cast hlt r rfl
    dsimp only
    rw [show dictGet (specToDict r) Col.sample_size =
      Except.ok (some ((r.sample_size : ℤ) : ℚ)) from rfl]
    dsimp only
    rw [show pyLT (some ((r.sample_size : ℤ) : ℚ)) 5 =
      Except.ok (decide (((r.sample_size : ℤ) : ℚ) < 5)) from rfl]
    rw [decide_eq_true h5]
    exact buildSnapshot_p10_err col tech (fallback_query_no_p10 st)

/-- Truncation toward zero is monotone. -/
theorem pyInt_mono {a b : ℚ} (h : a ≤ b) : pyInt a ≤ pyInt b := by
  unfold pyInt
  split_ifs with ha hb hb
  · exact Int.ceil_le_ceil h
  · have hc : ⌈a⌉ ≤ (0 : ℤ) := Int.ceil_le.mpr (by exact_mod_cast ha.le)
    have hf : (0 : ℤ) ≤ ⌊b⌋ := Int.floor_nonneg.mpr (not_lt.mp hb)
    exact le_trans hc hf
  · exact absurd (lt_of_le_of_lt h hb) ha
  · exact Int.floor_le_floor h

/-! ## Claim theorems -/

/-- C1: the spec requires that when the step-1 query yields fewer than
5 samples and the step-2 (title+verified, 24-month) query yields at
least 5, the snapshot returned to the caller is built from the step-2
result.  The code violates this: at a store whose step-1 query returns
3 samples and whose step-2 query returns a full 10-sample row, the
step-2 row is indeed selected by `_fallback_query` (second conjunct),
yet `get_market_data` returns the fixed default snapshot, because the
fallback SELECT omits `p10` and building the adjusted snapshot raises a
`KeyError` that the top-level handler converts into the default. -/
theorem C1_step2_result_discarded :
    get_market_data
      ⟨.ok (some ⟨some 50000, some 60000, some 70000, some 80000, some 90000, 3,
          some 65000, some 5000, some 2000⟩),
       .ok (some ⟨some 61000, some 71000, some 81000, some 91000, 10,
          some 66000, some 5000, some 2000⟩),
       .ok none⟩ "remote" [] = get_default_market_data ∧
    fallback_query
      ⟨.ok (some ⟨some 50000, some 60000, some 70000, some 80000, some 90000, 3,
          some 65000, some 5000, some 2000⟩),
       .ok (some ⟨some 61000, some 71000, some 81000, some 91000, 10,
          some 66000, some 5000, some 2000⟩),
       .ok none⟩ =
      fbToDict ⟨some 61000, some 71000, some 81000, some 91000, 10,
        some 66000, some 5000, some 2000⟩ := by
  constructor
  · rfl
  · rfl

/-- C2: whenever the store is reachable (the step-1 query returns,
either with no row or with a row of fewer than 5 samples), every
fallback dictionary lacks the `p10` key, so the snapshot construction
raises `KeyError` and `get_market_data` returns the fixed default
snapshot rather than the broadened step-2 or step-3 result. -/
theorem C2_fallback_yields_default (st : Store) (location : String)
    (tech_stack : List String) (row : Option SpecificRow)
    (hq : st.specific = .ok row)
    (hlt : ∀ r, row = some r → r.sample_size < 5) :
    get_market_data st location tech_stack = get_default_market_data := by
  unfold get_market_data
  dsimp only
  rw [getMarketDataE_fallback_err st _ _ row hq hlt]

/-- Witness for C2 at a concrete store: step-1 returns a 3-sample row,
step-2 a full 10-sample row, and the default snapshot comes back. -/
theorem C2_fallback_yields_default_witness :
    get_market_data
      ⟨.ok (some ⟨some 40000, some 50000, some 60000, some 70000, some 80000, 3,
          some 55000, some 4000, some 1000⟩),
       .ok (some ⟨some 51000, some 61000, some 71000, some 81000, 10,
          some 56000, some 4000, some 1000⟩),
       .ok none⟩ "nyc" ["go"] = get_default_market_data := by
  apply C2_fallback_yields_default _ _ _
    (some ⟨some 40000, some 50000, some 60000, some 70000, some 80000, 3,
      some 55000, some 4000, some 1000⟩) rfl
  intro r hr
  cases hr
  decide

/-- C5: when the step-1 store query itself raises, `get_market_data`
returns the fixed default snapshot (preset percentiles, sample_size 0,
confidence very_low, freshness estimated) and never propagates the
store failure. -/
theorem C5_store_error_yields_default (st : Store) (location : String)
    (tech_stack : List String) (e : String) (h : st.specific = .error e) :
    get_market_data st location tech_stack = get_default_market_data := by
  have he : getMarketDataE st (get_col_multiplier location)
      (calculate_tech_stack_premium tech_stack) = .error e := by
    unfold getMarketDataE
    rw [h]
  unfold get_market_data
  dsimp only
  rw [he]

/-- Witness for C5 at a concrete failing store. -/
theorem C5_store_error_yields_default_witness :
    get_market_data ⟨.error "store unavailable", .ok none, .ok none⟩
      "san francisco" ["rust"] = get_default_market_data :=
  C5_store_error_yields_default _ "san francisco" ["rust"] "store unavailable" rfl

/-- A value found by `List.lookup` is one of the table's values. -/
theorem lookup_val_mem : ∀ (l : List (String × ℚ)) (k : String) (q : ℚ),
    l.lookup k = some q → q ∈ l.map Prod.snd := by
  intro l
  induction l with
  | nil => intro k q h; simp [List.lookup] at h
  | cons kv t ih =>
    intro k q h
    obtain ⟨k1, v1⟩ := kv
    cases hk : (k == k1) with
    | true =>
      simp only [List.lookup, hk] at h
      simp only [List.map_cons]
      exact List.mem_cons.mpr (Or.inl (Option.some.inj h).symm)
    | false =>
      simp only [List.lookup, hk] at h
      exact List.mem_cons_of_mem _ (ih k q h)

/-- The left fold of `max` over a list stays inside the list (with its
start value adjoined): Python's `max` returns an element. -/
theorem foldl_max_mem (a : ℚ) (t : List ℚ) : t.foldl max a ∈ a :: t := by
  induction t generalizing a with
  | nil => simp
  | cons b t ih =>
    have h := ih (max a b)
    rw [List.foldl_cons]
    rcases List.mem_cons.mp h with h1 | h1
    · rcases max_choice a b with hm | hm
      · rw [h1, hm]; exact List.mem_cons_self _ _
      · rw [h1, hm]; exact List.mem_cons_of_mem _ (List.mem_cons_self _ _)
    · exact List.mem_cons_of_mem _ (List.mem_cons_of_mem _ h1)

/-- Every premium the collection loop gathers is a value of the premium
table (either by exact lookup or by the substring scan). -/
theorem collectPremiums_mem (tags : List String) :
    ∀ p ∈ collectPremiums tags, p ∈ premium_tech.map Prod.snd := by
  intro p hp
  unfold collectPremiums at hp
  rw [List.mem_filterMap] at hp
  obtain ⟨t, _, hmatch⟩ := hp
  cases hl : premium_tech.lookup t with
  | some q =>
    rw [hl] at hmatch
    dsimp only at hmatch
    cases Option.some.inj hmatch
    exact lookup_val_mem _ _ _ hl
  | none =>
    rw [hl] at hmatch
    dsimp only at hmatch
    rw [Option.map_eq_some'] at hmatch
    obtain ⟨kv, hfind, hsnd⟩ := hmatch
    rw [← hsnd]
    exact List.mem_map_of_mem _ (List.mem_of_find?_eq_some hfind)

/-- C7: the tech-stack premium always lies in [1, 1.35]; it is the
maximum (not the sum) of the matched premiums clamped at 1.35, with 1
exactly for an empty or unmatched tag set; `{rust}` yields 1.20 and
`{rust, ai}` yields 1.25. -/
theorem C7_tech_premium_contract (tags : List String) :
    (1 ≤ calculate_tech_stack_premium tags ∧
      calculate_tech_stack_premium tags ≤ 1.35) ∧
    calculate_tech_stack_premium tags =
      (if tags.isEmpty ∨ (collectPremiums tags).isEmpty then 1
       else min (maxQ (collectPremiums tags)) 1.35) ∧
    calculate_tech_stack_premium [] = 1 ∧
    calculate_tech_stack_premium ["rust"] = 1.20 ∧
    calculate_tech_stack_premium ["rust", "ai"] = 1.25 := by
  have hvals : ∀ v ∈ premium_tech.map Prod.snd, 1 ≤ v ∧ v ≤ 1.35 := by
    intro v hv
    fin_cases hv <;> constructor <;> norm_num
  have key : ∀ ts : List String, 1 ≤ calculate_tech_stack_premium ts ∧
      calculate_tech_stack_premium ts ≤ 1.35 := by
    intro ts
    unfold calculate_tech_stack_premium
    dsimp only
    split_ifs with h1 h2
    · norm_num
    · norm_num
    · constructor
      · have hne : collectPremiums ts ≠ [] := by
          intro hh
          rw [hh] at h2
          exact h2 rfl
        obtain ⟨a, t, hat⟩ := List.exists_cons_of_ne_nil hne
        have hmem : maxQ (collectPremiums ts) ∈ collectPremiums ts := by
          rw [hat]; exact foldl_max_mem a t
        have h1le := (hvals _ (collectPremiums_mem ts _ hmem)).1
        exact le_min h1le (by norm_num)
      · exact min_le_right _ _
  refine ⟨key tags, ?_, by with_unfolding_all rfl, by with_unfolding_all rfl,
    by with_unfolding_all rfl⟩
  unfold calculate_tech_stack_premium
  dsimp only
  by_cases h1 : tags.isEmpty
  · simp [h1]
  · by_cases h2 : (collectPremiums tags).isEmpty
    · simp [h1, h2]
    · simp [h1, h2]

/-- C9: with positive cost-of-living and tech multipliers, the adjusted
percentiles (multiplied by both factors and truncated to an integer)
remain non-decreasing whenever they are all present, and a null input
percentile stays null. -/
theorem C9_adjustment_preserves_order (p10 p25 p50 p75 p90 col tech : ℚ)
    (a1 a2 a3 a4 a5 : ℤ) (hcol : 0 < col) (htech : 0 < tech)
    (h12 : p10 ≤ p25) (h23 : p25 ≤ p50) (h34 : p50 ≤ p75) (h45 : p75 ≤ p90)
    (e1 : adjustVal col tech (some p10) = some a1)
    (e2 : adjustVal col tech (some p25) = some a2)
    (e3 : adjustVal col tech (some p50) = some a3)
    (e4 : adjustVal col tech (some p75) = some a4)
    (e5 : adjustVal col tech (some p90) = some a5) :
    adjustVal col tech none = none ∧
    a1 ≤ a2 ∧ a2 ≤ a3 ∧ a3 ≤ a4 ∧ a4 ≤ a5 := by
  have hval : ∀ x a, adjustVal col tech (some x) = some a →
      a = pyInt (x * col * tech) := by
    intro x a h
    simp only [adjustVal] at h
    split_ifs at h
    exact (Option.some.inj h).symm
  have step : ∀ {x y : ℚ} {a b : ℤ}, x ≤ y →
      adjustVal col tech (some x) = some a →
      adjustVal col tech (some y) = some b → a ≤ b := by
    intro x y a b hxy ha hb
    rw [hval x a ha, hval y b hb]
    exact pyInt_mono
      (mul_le_mul_of_nonneg_right (mul_le_mul_of_nonneg_right hxy hcol.le)
        htech.le)
  exact ⟨rfl, step h12 e1 e2, step h23 e2 e3, step h34 e3 e4, step h45 e4 e5⟩

/-- Witness for C9 at concrete ordered percentiles 1..5 and multipliers
2 and 3. -/
theorem C9_adjustment_preserves_order_witness :
    adjustVal 2 3 none = none ∧
    (6 : ℤ) ≤ 12 ∧ (12 : ℤ) ≤ 18 ∧ (18 : ℤ) ≤ 24 ∧ (24 : ℤ) ≤ 30 :=
  C9_adjustment_preserves_order 1 2 3 4 5 2 3 6 12 18 24 30
    (by norm_num) (by norm_num) (by norm_num) (by norm_num) (by norm_num)
    (by norm_num) (by with_unfolding_all rfl) (by with_unfolding_all rfl)
    (by with_unfolding_all rfl) (by with_unfolding_all rfl)
    (by with_unfolding_all rfl)

/-- C3: a non-compliant minimum-wage result forces the below-minimum
verdict (spelled `"BELOW_UMK"` in the code) regardless of market
position; otherwise, with a present non-zero p50 the verdict follows the
percentile ladder (absent percentiles reading as 0), and with p50 absent
or zero it follows the fixed absolute-threshold ladder. -/
theorem C3_verdict_override_and_ladder (total_comp : ℤ) (md : MarketSnapshot)
    (c : ComplianceResult) :
    (c.complies = false →
      determine_verdict_umk total_comp md (some c) = "BELOW_UMK") ∧
    (c.complies = true → orZero md.p50 ≠ 0 →
      determine_verdict_umk total_comp md (some c) =
        (if total_comp < orZero md.p25 then "SIGNIFICANTLY_UNDERPAID"
         else if total_comp < orZero md.p50 then "UNDERPAID"
         else if total_comp < orZero md.p75 then "FAIR"
         else if total_comp < orZero md.p90 then "COMPETITIVE"
         else "EXCELLENT")) ∧
    (c.complies = true → orZero md.p50 = 0 →
      determine_verdict_umk total_comp md (some c) =
        (if total_comp < 70000 then "SIGNIFICANTLY_UNDERPAID"
         else if total_comp < 90000 then "UNDERPAID"
         else if total_comp < 120000 then "FAIR"
         else if total_comp < 150000 then "COMPETITIVE"
         else "EXCELLENT")) := by
  refine ⟨?_, ?_, ?_⟩
  · intro hc
    simp [determine_verdict_umk, hc]
  · intro hc h50
    simp only [determine_verdict_umk, hc, Bool.not_true]
    rw [if_neg (by simp)]
    unfold determine_verdict
    dsimp only
    rw [if_neg h50]
  · intro hc h50
    simp only [determine_verdict_umk, hc, Bool.not_true]
    rw [if_neg (by simp)]
    unfold determine_verdict
    dsimp only
    rw [if_pos h50]

/-- Witness for C3: a non-compliant result overrides an otherwise decent
offer; a compliant result follows the percentile ladder, and an empty
snapshot falls back to the absolute ladder. -/
theorem C3_verdict_override_and_ladder_witness :
    determine_verdict_umk 500000
      ⟨none, none, some 95000, none, none, some 0, none, none, none, "v", "r"⟩
      (some ⟨false, none, none, none, none, none, none, none, none, none,
        none, none, "m", none⟩) = "BELOW_UMK" ∧
    determine_verdict_umk 100000
      ⟨none, some 80000, some 95000, some 120000, some 150000, some 0, none,
        none, none, "v", "r"⟩
      (some ⟨true, none, none, none, none, none, none, none, none, none,
        none, none, "m", none⟩) = "FAIR" ∧
    determine_verdict_umk 100000
      ⟨none, none, none, none, none, some 0, none, none, none, "v", "r"⟩
      (some ⟨true, none, none, none, none, none, none, none, none, none,
        none, none, "m", none⟩) = "FAIR" := by
  refine ⟨?_, ?_, ?_⟩
  · exact (C3_verdict_override_and_ladder 500000 _ _).1 rfl
  · have h := (C3_verdict_override_and_ladder 100000
      ⟨none, some 80000, some 95000, some 120000, some 150000, some 0, none,
        none, none, "v", "r"⟩
      ⟨true, none, none, none, none, none, none, none, none, none,
        none, none, "m", none⟩).2.1 rfl (by decide)
    exact h.trans (by decide)
  · have h := (C3_verdict_override_and_ladder 100000
      ⟨none, none, none, none, none, some 0, none, none, none, "v", "r"⟩
      ⟨true, none, none, none, none, none, none, none, none, none,
        none, none, "m", none⟩).2.2 rfl (by decide)
    exact h.trans (by decide)

/-- C4 counterexample to the claim's concrete figure: at monthly base
6,000,000 against the Jakarta minimum 5,067,823, the stored percentage
(rounded to 1 decimal) is 18.4, not 18.2; additionally the risk
thresholds are evaluated on the unrounded percentage, so a compliant
offer whose raw percentage is 49.96 (rounded field 50.0) still gets risk
level "low" where the claim's reading (rounded percentage ≥ 50 →
"none") disagrees. -/
theorem C4_percentage_figure_refuted :
    (calculate_umk_compliance 6000000
      (UMK_DATA_2024.lookup "jakarta")).percentage_above_umk = some 18.4 ∧
    ¬ (calculate_umk_compliance 6000000
      (UMK_DATA_2024.lookup "jakarta")).percentage_above_umk = some 18.2 ∧
    (calculate_umk_compliance 14996
      (some ⟨"Kota Uji", "Uji", 10000, "uji"⟩)).percentage_above_umk =
      some 50.0 ∧
    (calculate_umk_compliance 14996
      (some ⟨"Kota Uji", "Uji", 10000, "uji"⟩)).risk_level = some "low" := by
  refine ⟨by with_unfolding_all rfl, ?_, by with_unfolding_all rfl,
    by with_unfolding_all rfl⟩
  intro hbad
  rw [show (calculate_umk_compliance 6000000
      (UMK_DATA_2024.lookup "jakarta")).percentage_above_umk =
      some (18.4 : ℚ) from by with_unfolding_all rfl] at hbad
  have h := Option.some.inj hbad
  norm_num at h

/-- C4 (amended): for a positive monthly minimum, compliance compares
the annualised amounts, the stored percentage is the rounded relative
difference, and the risk level is high when non-compliant, low when the
raw percentage is below 50 and none otherwise; the Jakarta examples give
complies/18.4/low and fails/high. -/
theorem C4_umk_compliance_contract (base : ℤ) (rec : UMKRecord)
    (hpos : 0 < rec.umk) :
    ((calculate_umk_compliance base (some rec)).complies = true ↔
      rec.umk * 12 ≤ base * 12) ∧
    (calculate_umk_compliance base (some rec)).percentage_above_umk =
      some (pyRound1 (((base * 12 - rec.umk * 12 : ℤ) : ℚ) /
        ((rec.umk * 12 : ℤ) : ℚ) * 100)) ∧
    (calculate_umk_compliance base (some rec)).risk_level =
      some (if base * 12 < rec.umk * 12 then "high"
        else if ((base * 12 - rec.umk * 12 : ℤ) : ℚ) /
            ((rec.umk * 12 : ℤ) : ℚ) * 100 < 50 then "low"
        else "none") ∧
    (calculate_umk_compliance 6000000
      (UMK_DATA_2024.lookup "jakarta")).complies = true ∧
    (calculate_umk_compliance 6000000
      (UMK_DATA_2024.lookup "jakarta")).percentage_above_umk = some 18.4 ∧
    (calculate_umk_compliance 6000000
      (UMK_DATA_2024.lookup "jakarta")).risk_level = some "low" ∧
    (calculate_umk_compliance 3000000
      (UMK_DATA_2024.lookup "jakarta")).complies = false ∧
    (calculate_umk_compliance 3000000
      (UMK_DATA_2024.lookup "jakarta")).risk_level = some "high" := by
  have h12 : (0 : ℤ) < rec.umk * 12 := by omega
  refine ⟨?_, ?_, ?_, by with_unfolding_all rfl, by with_unfolding_all rfl,
    by with_unfolding_all rfl, by with_unfolding_all rfl,
    by with_unfolding_all rfl⟩
  · unfold calculate_umk_compliance
    dsimp only
    exact decide_eq_true_iff
  · unfold calculate_umk_compliance
    dsimp only
    rw [if_pos h12]
  · unfold calculate_umk_compliance
    dsimp only
    rw [if_pos h12]
    by_cases hlt : base * 12 < rec.umk * 12
    · rw [if_pos hlt, if_pos hlt]
    · rw [if_neg hlt, if_neg hlt]
      by_cases h20 : ((base * 12 - rec.umk * 12 : ℤ) : ℚ) /
          ((rec.umk * 12 : ℤ) : ℚ) * 100 < 20
      · rw [if_pos h20, if_pos (lt_trans h20 (by norm_num))]
      · rw [if_neg h20]

/-- Witness for C4 at the Jakarta record. -/
theorem C4_umk_compliance_contract_witness :
    (calculate_umk_compliance 6000000
      (some ⟨"Jakarta", "DKI Jakarta", 5067823, "jabodetabek"⟩)).complies =
      true :=
  ((C4_umk_compliance_contract 6000000
    ⟨"Jakarta", "DKI Jakarta", 5067823, "jabodetabek"⟩ (by norm_num)).1).mpr
    (by norm_num)

/-- C6: a zero total compensation yields all-zero targets (the
division-by-zero guard); otherwise the conservative target is the
maximum of a 5% raise and p75 (1.1× substituted when p75 is absent or
zero), the aggressive target is p90 (1.2× when absent or zero), the
realistic target is their midpoint, percentage increases are rounded to
one decimal, and the spec's worked example evaluates as stated. -/
theorem C6_negotiation_targets (cc : ℤ) (md : MarketSnapshot) (hcc : cc ≠ 0) :
    calculate_negotiation_room 0 md = ⟨0, 0, 0, 0, 0, 0⟩ ∧
    (∀ v w : ℤ, md.p75 = some v → md.p90 = some w → v ≠ 0 → w ≠ 0 →
      calculate_negotiation_room cc md =
        { conservative := pyInt (max ((cc : ℚ) * 1.05) ((v : ℤ) : ℚ)),
          realistic :=
            pyInt ((max ((cc : ℚ) * 1.05) ((v : ℤ) : ℚ) + ((w : ℤ) : ℚ)) / 2),
          aggressive := pyInt ((w : ℤ) : ℚ),
          pi_conservative := pyRound1
            ((max ((cc : ℚ) * 1.05) ((v : ℤ) : ℚ) / (cc : ℚ) - 1) * 100),
          pi_realistic := pyRound1
            (((max ((cc : ℚ) * 1.05) ((v : ℤ) : ℚ) + ((w : ℤ) : ℚ)) / 2 /
              (cc : ℚ) - 1) * 100),
          pi_aggressive := pyRound1 ((((w : ℤ) : ℚ) / (cc : ℚ) - 1) * 100) }) ∧
    (md.p75 = none → md.p90 = none →
      calculate_negotiation_room cc md =
        { conservative := pyInt (max ((cc : ℚ) * 1.05) ((cc : ℚ) * 1.1)),
          realistic := pyInt
            ((max ((cc : ℚ) * 1.05) ((cc : ℚ) * 1.1) + (cc : ℚ) * 1.2) / 2),
          aggressive := pyInt ((cc : ℚ) * 1.2),
          pi_conservative := pyRound1
            ((max ((cc : ℚ) * 1.05) ((cc : ℚ) * 1.1) / (cc : ℚ) - 1) * 100),
          pi_realistic := pyRound1
            (((max ((cc : ℚ) * 1.05) ((cc : ℚ) * 1.1) + (cc : ℚ) * 1.2) / 2 /
              (cc : ℚ) - 1) * 100),
          pi_aggressive := pyRound1 (((cc : ℚ) * 1.2 / (cc : ℚ) - 1) * 100) }) ∧
    calculate_negotiation_room 100000
      ⟨none, none, none, some 120000, some 150000, some 0, none, none, none,
        "very_low", "recent"⟩ = ⟨120000, 135000, 150000, 20, 35, 50⟩ := by
  refine ⟨by rfl, ?_, ?_, by with_unfolding_all rfl⟩
  · intro v w h75 h90 hv hw
    unfold calculate_negotiation_room
    rw [if_neg hcc, h75, h90]
    dsimp only
    rw [if_neg hv, if_neg hw]
  · intro h75 h90
    unfold calculate_negotiation_room
    rw [if_neg hcc, h75, h90]

/-- Witness for C6 at total comp 200,000 with p75 = 250,000 and
p90 = 300,000. -/
theorem C6_negotiation_targets_witness :
    calculate_negotiation_room 200000
      ⟨none, none, none, some 250000, some 300000, some 0, none, none, none,
        "v", "r"⟩ = ⟨250000, 275000, 300000, 25, 37.5, 50⟩ := by
  have h := (C6_negotiation_targets 200000
    ⟨none, none, none, some 250000, some 300000, some 0, none, none, none,
      "v", "r"⟩ (by norm_num)).2.1 250000 300000 rfl rfl
    (by norm_num) (by norm_num)
  exact h.trans (by with_unfolding_all rfl)

/-- C8: a location text matching no table entry — direct lookup on the
cleaned text, substring match either way, and the province fallback all
miss — yields `none` rather than an error, and the compliance check
treats a `none` record as indeterminate: complies true, null percentage
and difference fields, a data-unavailable message and no risk level. -/
theorem C8_lookup_miss_is_indeterminate (location : String) (base : ℤ)
    (h1 : UMK_DATA_2024.lookup (locationClean location) = none)
    (h2 : UMK_DATA_2024.find? (fun p => strIn p.1 (locationClean location) ||
      strIn (locationClean location) p.1) = none)
    (h3 : province_umk.find?
      (fun p => strIn p.1 (locationLower location)) = none) :
    get_umk_for_location location = none ∧
    calculate_umk_compliance base none = nullComplianceResult ∧
    nullComplianceResult.complies = true ∧
    nullComplianceResult.percentage_above_umk = none ∧
    nullComplianceResult.umk_amount = none ∧
    nullComplianceResult.difference = none ∧
    nullComplianceResult.message = "UMK data not available for this location" ∧
    nullComplianceResult.risk_level = none := by
  refine ⟨?_, rfl, rfl, rfl, rfl, rfl, rfl, rfl⟩
  unfold get_umk_for_location
  by_cases hloc : location = ""
  · rw [if_pos hloc]
  · rw [if_neg hloc]
    dsimp only
    rw [h1, h2, h3]

/-- Witness for C8: "london" matches nothing and compliance on the
missing record is indeterminate. -/
theorem C8_lookup_miss_is_indeterminate_witness :
    get_umk_for_location "london" = none ∧
    calculate_umk_compliance 4500000 none = nullComplianceResult ∧
    nullComplianceResult.complies = true ∧
    nullComplianceResult.percentage_above_umk = none ∧
    nullComplianceResult.umk_amount = none ∧
    nullComplianceResult.difference = none ∧
    nullComplianceResult.message = "UMK data not available for this location" ∧
    nullComplianceResult.risk_level = none :=
  C8_lookup_miss_is_indeterminate "london" 4500000
    (by with_unfolding_all rfl) (by with_unfolding_all rfl)
    (by with_unfolding_all rfl)

/-- C10: with a present median, the leverage points come out in the
fixed order market_rate, tech_premium, experience, missing_equity,
missing_bonus, competition, each emitted exactly under its condition:
market_rate (strong) iff p50 exceeds the offered base, tech_premium iff
at least one tag is in the hot list (medium for 1–2 matches, strong for
3 or more), experience medium at ≥5 years and strong at ≥10,
missing_equity (medium) iff equity is falsy and a company name is
present, missing_bonus (weak) iff bonus is falsy and base > 80000, and
competition (strong) iff competing offers are reported. -/
theorem C10_leverage_point_emission (o : Offer) (md : MarketSnapshot)
    (p50 : ℤ) (h : md.p50 = some p50) :
    extract_leverage_points o md = .ok (
      (if o.base_salary.getD 0 < p50 then
        [⟨"market_rate", "Market median base salary is $" ++
          fmtComma (p50 - o.base_salary.getD 0) ++ " higher", "strong"⟩]
       else []) ++
      (if 1 ≤ (hot_tech.filter
          (fun t => (o.tech_stack.map lowerStr).contains t)).length then
        [⟨"tech_premium", "Specialized in high-demand technologies: " ++
            String.intercalate ", " ((hot_tech.filter
              (fun t => (o.tech_stack.map lowerStr).contains t)).take 3),
          if (hot_tech.filter
              (fun t => (o.tech_stack.map lowerStr).contains t)).length ≤ 2
          then "medium" else "strong"⟩]
       else []) ++
      (if 10 ≤ o.years_experience then
        [⟨"experience", toString o.years_experience ++
          "+ years of extensive experience", "strong"⟩]
       else if 5 ≤ o.years_experience then
        [⟨"experience", toString o.years_experience ++
          "+ years of solid experience", "medium"⟩]
       else []) ++
      (if o.equity_value.getD 0 = 0 ∧ ¬ o.company.getD "" = "" then
        [⟨"missing_equity", "No equity component in current offer",
          "medium"⟩]
       else []) ++
      (if o.bonus.getD 0 = 0 ∧ 80000 < o.base_salary.getD 0 then
        [⟨"missing_bonus", "No performance bonus structure", "weak"⟩]
       else []) ++
      (if o.has_competing_offers then
        [⟨"competition", "Multiple offers in hand provides leverage",
          "strong"⟩]
       else [])) := by
  unfold extract_leverage_points
  rw [h]
  dsimp only
  have e2 : ∀ (l : List String) (d : String),
      (if l.isEmpty then ([] : List LeveragePoint)
       else [⟨"tech_premium", d,
         if l.length < 3 then "medium" else "strong"⟩]) =
      (if 1 ≤ l.length then
        [⟨"tech_premium", d, if l.length ≤ 2 then "medium" else "strong"⟩]
       else []) := by
    intro l d
    cases l with
    | nil => simp
    | cons a t => simp [Nat.lt_succ_iff]
  have e4 : ∀ (z : Option ℤ) (s : Option String),
      (if ¬ truthyZ z ∧ truthyS s then
        [(⟨"missing_equity", "No equity component in current offer",
          "medium"⟩ : LeveragePoint)]
       else []) =
      (if z.getD 0 = 0 ∧ ¬ s.getD "" = "" then
        [⟨"missing_equity", "No equity component in current offer",
          "medium"⟩]
       else []) := by
    intro z s
    cases z <;> cases s <;> simp [truthyZ, truthyS]
  have e5 : ∀ (z : Option ℤ) (b : ℤ),
      (if ¬ truthyZ z ∧ 80000 < b then
        [(⟨"missing_bonus", "No performance bonus structure", "weak"⟩ :
          LeveragePoint)]
       else []) =
      (if z.getD 0 = 0 ∧ 80000 < b then
        [⟨"missing_bonus", "No performance bonus structure", "weak"⟩]
       else []) := by
    intro z b
    cases z <;> simp [truthyZ]
  rw [e2, e4, e5]

/-- Witness for C10: a concrete offer triggering all six leverage
points, in order. -/
theorem C10_leverage_point_emission_witness :
    extract_leverage_points
      ⟨some 90000, none, none, some "Acme", 6, ["Rust", "AWS"], true⟩
      ⟨none, none, some 95000, none, none, some 0, none, none, none,
        "v", "r"⟩ =
      .ok [⟨"market_rate", "Market median base salary is $5,000 higher",
          "strong"⟩,
        ⟨"tech_premium",
          "Specialized in high-demand technologies: rust, aws", "medium"⟩,
        ⟨"experience", "6+ years of solid experience", "medium"⟩,
        ⟨"missing_equity", "No equity component in current offer", "medium"⟩,
        ⟨"missing_bonus", "No performance bonus structure", "weak"⟩,
        ⟨"competition", "Multiple offers in hand provides leverage",
          "strong"⟩] := by
  have h := C10_leverage_point_emission
    ⟨some 90000, none, none, some "Acme", 6, ["Rust", "AWS"], true⟩
    ⟨none, none, some 95000, none, none, some 0, none, none, none, "v", "r"⟩
    95000 rfl
  exact h.trans (by with_unfolding_all rfl)
